import Mathlib

/-!
Verification of the derived-field calculator and feature-record assembly of
the loan-approval application (`loan_approval_app.py`, prediction page).

All Python numeric values are modelled as exact rationals (ℚ).  Python's
raising division is modelled separately by `pydiv?`, which returns `none`
on a zero denominator, so totality claims can be stated faithfully.
-/

namespace LoanApp

/-- `monthly_income = annual_income / 12` (line 846 of the source). -/
def monthly_income (annual_income : ℚ) : ℚ := annual_income / 12

/-- `net_worth = total_assets - total_liabilities` (line 857). -/
def net_worth (total_assets total_liabilities : ℚ) : ℚ :=
  total_assets - total_liabilities

/-- `debt_to_income = monthly_debt / (annual_income / 12) if annual_income > 0 else 0`
(line 876). -/
def debt_to_income (monthly_debt annual_income : ℚ) : ℚ :=
  if annual_income > 0 then monthly_debt / (annual_income / 12) else 0

/-- `total_debt_to_income = (monthly_debt * 12) / annual_income if annual_income > 0 else 0`
(line 877). -/
def total_debt_to_income (monthly_debt annual_income : ℚ) : ℚ :=
  if annual_income > 0 then (monthly_debt * 12) / annual_income else 0

/-- `interest_rate_adjustment = (700 - credit_score) / 100 * 0.5` (line 912). -/
def interest_rate_adjustment (credit_score : ℚ) : ℚ :=
  (700 - credit_score) / 100 * 0.5

/-- `interest_rate = base_interest_rate + interest_rate_adjustment` (line 913). -/
def interest_rate (base_interest_rate credit_score : ℚ) : ℚ :=
  base_interest_rate + interest_rate_adjustment credit_score

/-- `monthly_rate = interest_rate / 100 / 12` (line 915). -/
def monthly_rate (ir : ℚ) : ℚ := ir / 100 / 12

/-- The amortized monthly payment (lines 917-918):
`loan_amount * (monthly_rate * (1 + monthly_rate)**num_payments) /
 ((1 + monthly_rate)**num_payments - 1) if monthly_rate > 0
 else loan_amount / num_payments`. -/
def monthly_payment (loan_amount mrate : ℚ) (num_payments : ℕ) : ℚ :=
  if mrate > 0 then
    loan_amount * (mrate * (1 + mrate) ^ num_payments) /
      ((1 + mrate) ^ num_payments - 1)
  else loan_amount / (num_payments : ℚ)

/-- The loan-duration selectbox options (line 904). -/
def durationChoices : List ℕ := [12, 24, 36, 48, 60, 72, 84, 96, 108, 120]

/-- One applicant's form inputs, as collected on the prediction page.
Python ints and floats are both modelled as ℚ; categorical widgets as
`String`; the yes/no selectboxes store `0`/`1` as in the source. -/
structure ApplicantInput where
  age : ℚ
  marital_status : String
  num_dependents : ℚ
  education_level : String
  home_ownership : String
  employment_status : String
  experience : ℚ
  job_tenure : ℚ
  annual_income : ℚ
  savings_balance : ℚ
  checking_balance : ℚ
  total_assets : ℚ
  total_liabilities : ℚ
  credit_score : ℚ
  credit_card_util : ℚ
  num_open_credit : ℚ
  monthly_debt : ℚ
  num_inquiries : ℚ
  length_credit_history : ℚ
  payment_history : ℚ
  utility_bills_payment : ℚ
  bankruptcy : ℚ
  previous_defaults : ℚ
  loan_amount : ℚ
  loan_duration : ℕ
  loan_purpose : String
  base_interest_rate : ℚ

/-- A cell of the assembled single-row DataFrame: numeric or string. -/
inductive PyVal where
  | num (q : ℚ)
  | str (s : String)
deriving DecidableEq

/-- The `input_data` DataFrame assembled before prediction (lines 931-964),
as the ordered list of (column-name, value) pairs, in source order. -/
def input_data (a : ApplicantInput) : List (String × PyVal) :=
  [ ("Age", .num a.age),
    ("AnnualIncome", .num a.annual_income),
    ("CreditScore", .num a.credit_score),
    ("EmploymentStatus", .str a.employment_status),
    ("EducationLevel", .str a.education_level),
    ("Experience", .num a.experience),
    ("LoanAmount", .num a.loan_amount),
    ("LoanDuration", .num (a.loan_duration : ℚ)),
    ("MaritalStatus", .str a.marital_status),
    ("NumberOfDependents", .num a.num_dependents),
    ("HomeOwnershipStatus", .str a.home_ownership),
    ("MonthlyDebtPayments", .num a.monthly_debt),
    ("CreditCardUtilizationRate", .num a.credit_card_util),
    ("NumberOfOpenCreditLines", .num a.num_open_credit),
    ("NumberOfCreditInquiries", .num a.num_inquiries),
    ("DebtToIncomeRatio", .num (debt_to_income a.monthly_debt a.annual_income)),
    ("BankruptcyHistory", .num a.bankruptcy),
    ("LoanPurpose", .str a.loan_purpose),
    ("PreviousLoanDefaults", .num a.previous_defaults),
    ("PaymentHistory", .num (a.payment_history / 100)),
    ("LengthOfCreditHistory", .num a.length_credit_history),
    ("SavingsAccountBalance", .num a.savings_balance),
    ("CheckingAccountBalance", .num a.checking_balance),
    ("TotalAssets", .num a.total_assets),
    ("TotalLiabilities", .num a.total_liabilities),
    ("MonthlyIncome", .num (monthly_income a.annual_income)),
    ("UtilityBillsPaymentHistory", .num (a.utility_bills_payment / 100)),
    ("JobTenure", .num a.job_tenure),
    ("NetWorth", .num (net_worth a.total_assets a.total_liabilities)),
    ("BaseInterestRate", .num a.base_interest_rate),
    ("InterestRate", .num (interest_rate a.base_interest_rate a.credit_score)),
    ("MonthlyLoanPayment", .num
      (monthly_payment a.loan_amount
        (monthly_rate (interest_rate a.base_interest_rate a.credit_score))
        a.loan_duration)),
    ("TotalDebtToIncomeRatio", .num
      (total_debt_to_income a.monthly_debt a.annual_income)) ]

/-- The fixed 33-name schema the classifier was trained on, in order. -/
def expectedFields : List String :=
  [ "Age", "AnnualIncome", "CreditScore", "EmploymentStatus",
    "EducationLevel", "Experience", "LoanAmount", "LoanDuration",
    "MaritalStatus", "NumberOfDependents", "HomeOwnershipStatus",
    "MonthlyDebtPayments", "CreditCardUtilizationRate",
    "NumberOfOpenCreditLines", "NumberOfCreditInquiries",
    "DebtToIncomeRatio", "BankruptcyHistory", "LoanPurpose",
    "PreviousLoanDefaults", "PaymentHistory", "LengthOfCreditHistory",
    "SavingsAccountBalance", "CheckingAccountBalance", "TotalAssets",
    "TotalLiabilities", "MonthlyIncome", "UtilityBillsPaymentHistory",
    "JobTenure", "NetWorth", "BaseInterestRate", "InterestRate",
    "MonthlyLoanPayment", "TotalDebtToIncomeRatio" ]

/-- Python's `/`, which raises `ZeroDivisionError` on a zero denominator,
modelled as an `Option`. -/
def pydiv? (x y : ℚ) : Option ℚ := if y = 0 then none else some (x / y)

/-- The derived fields of the prediction page. -/
structure DerivedFields where
  monthlyIncome : ℚ
  netWorth : ℚ
  debtToIncome : ℚ
  totalDebtToIncome : ℚ
  interestRate : ℚ
  monthlyRate : ℚ
  monthlyPayment : ℚ
deriving DecidableEq

/-- The derived-field computation of lines 846-918 with every Python
division performed by the raising `pydiv?`: returns `none` exactly when
the source code would raise `ZeroDivisionError`. -/
def compute_derived? (a : ApplicantInput) : Option DerivedFields := do
  let mi ← pydiv? a.annual_income 12
  let nw := a.total_assets - a.total_liabilities
  let dti ← if a.annual_income > 0 then
      pydiv? a.monthly_debt (a.annual_income / 12)
    else pure 0
  let tdti ← if a.annual_income > 0 then
      pydiv? (a.monthly_debt * 12) a.annual_income
    else pure 0
  let adj ← pydiv? (700 - a.credit_score) 100
  let ir := a.base_interest_rate + adj * 0.5
  let ir100 ← pydiv? ir 100
  let mr ← pydiv? ir100 12
  let mp ← if mr > 0 then
      pydiv? (a.loan_amount * (mr * (1 + mr) ^ a.loan_duration))
        ((1 + mr) ^ a.loan_duration - 1)
    else pydiv? a.loan_amount (a.loan_duration : ℚ)
  pure ⟨mi, nw, dti, tdti, ir, mr, mp⟩

/-- `pydiv?` succeeds exactly on nonzero denominators. -/
theorem pydiv?_eq (x y : ℚ) (h : y ≠ 0) : pydiv? x y = some (x / y) := by
  rw [pydiv?, if_neg h]

/-- Helper: the annuity payment at principal 25000, rate 7/1200, 60 months
rounds to 495.03. -/
theorem payment_seven_pct_bound :
    |monthly_payment 25000 (7 / 1200) 60 - 495.03| < 0.005 := by
  have hp : monthly_payment 25000 (7 / 1200) 60
      = 25000 * (7 / 1200 * (1 + 7 / 1200) ^ 60) / ((1 + 7 / 1200) ^ 60 - 1) := by
    rw [monthly_payment, if_pos (by norm_num)]
  rw [hp, abs_lt]
  constructor <;> norm_num

/-- C3: the adjusted interest rate is the pure linear adjustment
`base + (700 - creditScore) / 100 * 0.5` with no clamping, it is placed
unmodified into the assembled feature record, and at (6.5, 600) it is
exactly 7.0. -/
theorem interest_rate_linear_unclamped (a : ApplicantInput) :
    interest_rate a.base_interest_rate a.credit_score
      = a.base_interest_rate + (700 - a.credit_score) / 100 * 0.5
    ∧ List.lookup "InterestRate" (input_data a)
        = some (.num (interest_rate a.base_interest_rate a.credit_score))
    ∧ interest_rate 6.5 600 = 7 := by
  refine ⟨rfl, ?_, by norm_num [interest_rate, interest_rate_adjustment]⟩
  simp [input_data, List.lookup]

/-- C4: the debt-to-income ratios follow their formulas when
`annualIncome > 0` and are 0 when `annualIncome = 0`. -/
theorem debt_ratios_spec (md ai : ℚ) :
    (0 < ai → debt_to_income md ai = md / (ai / 12)
      ∧ total_debt_to_income md ai = (md * 12) / ai)
    ∧ (ai = 0 → debt_to_income md ai = 0 ∧ total_debt_to_income md ai = 0) := by
  constructor
  · intro h
    exact ⟨if_pos h, if_pos h⟩
  · intro h
    subst h
    exact ⟨if_neg (by norm_num), if_neg (by norm_num)⟩

/-- C4 witness: the spec evaluated at md = 400, ai = 60000 and at ai = 0. -/
theorem debt_ratios_spec_witness :
    debt_to_income 400 60000 = 400 / (60000 / 12)
    ∧ total_debt_to_income 400 60000 = (400 * 12) / 60000
    ∧ debt_to_income 50 0 = 0 ∧ total_debt_to_income 50 0 = 0 :=
  ⟨((debt_ratios_spec 400 60000).1 (by norm_num)).1,
   ((debt_ratios_spec 400 60000).1 (by norm_num)).2,
   ((debt_ratios_spec 50 0).2 rfl).1,
   ((debt_ratios_spec 50 0).2 rfl).2⟩

/-- C7: for positive annual income, the derived monthly income times 12
recovers the annual income exactly. -/
theorem monthly_income_roundtrip (ai : ℚ) (h : 0 < ai) :
    monthly_income ai * 12 = ai := by
  unfold monthly_income
  field_simp

/-- C7 witness at ai = 60000. -/
theorem monthly_income_roundtrip_witness :
    monthly_income 60000 * 12 = 60000 :=
  monthly_income_roundtrip 60000 (by norm_num)

/-- C9: the guard tests `annualIncome > 0`, so every nonpositive income —
zero or strictly negative — saturates both ratios to 0. -/
theorem debt_ratios_nonpos_income (md ai : ℚ) (h : ai ≤ 0) :
    debt_to_income md ai = 0 ∧ total_debt_to_income md ai = 0 :=
  ⟨if_neg (not_lt.mpr h), if_neg (not_lt.mpr h)⟩

/-- C9 witness at md = 400, ai = -5000 (strictly negative). -/
theorem debt_ratios_nonpos_income_witness :
    debt_to_income 400 (-5000) = 0 ∧ total_debt_to_income 400 (-5000) = 0 :=
  debt_ratios_nonpos_income 400 (-5000) (by norm_num)

/-- C6: the calculator is total.  For every input whose loan duration is
one of the selectbox choices — annual income and rate arbitrary, the
zero-income and nonpositive-rate degenerate cases included — every
division succeeds, so the raising model returns `some` of exactly the
derived values. -/
theorem calculator_never_raises (a : ApplicantInput)
    (h : a.loan_duration ∈ durationChoices) :
    compute_derived? a = some
      ⟨monthly_income a.annual_income,
       net_worth a.total_assets a.total_liabilities,
       debt_to_income a.monthly_debt a.annual_income,
       total_debt_to_income a.monthly_debt a.annual_income,
       interest_rate a.base_interest_rate a.credit_score,
       monthly_rate (interest_rate a.base_interest_rate a.credit_score),
       monthly_payment a.loan_amount
         (monthly_rate (interest_rate a.base_interest_rate a.credit_score))
         a.loan_duration⟩ := by
  have hn0 : a.loan_duration ≠ 0 := by
    simp only [durationChoices, List.mem_cons, List.not_mem_nil, or_false] at h
    omega
  have hnq : (a.loan_duration : ℚ) ≠ 0 := Nat.cast_ne_zero.mpr hn0
  have e12 : ((12 : ℚ) = 0) = False := by norm_num
  have e100 : ((100 : ℚ) = 0) = False := by norm_num
  have enq : (((a.loan_duration : ℚ)) = 0) = False := eq_false hnq
  by_cases hai : a.annual_income > 0
  · have eai : (a.annual_income > 0) = True := eq_true hai
    have eden : (a.annual_income / 12 = 0) = False :=
      eq_false (div_ne_zero (ne_of_gt hai) (by norm_num))
    have eainz : (a.annual_income = 0) = False := eq_false (ne_of_gt hai)
    by_cases hr : (a.base_interest_rate
        + (700 - a.credit_score) / 100 * 0.5) / 100 / 12 > 0
    · have epow : ((1 + (a.base_interest_rate
            + (700 - a.credit_score) / 100 * 0.5) / 100 / 12) ^ a.loan_duration
            - 1 = 0) = False :=
        eq_false (sub_ne_zero_of_ne (ne_of_gt (one_lt_pow₀ (by linarith) hn0)))
      simp only [compute_derived?, pydiv?, monthly_income, net_worth,
        debt_to_income, total_debt_to_income, interest_rate,
        interest_rate_adjustment, monthly_rate, monthly_payment,
        e12, e100, enq, eai, eden, eainz, eq_true hr, epow,
        if_true, if_false, Option.bind_eq_bind', Option.some_bind, Option.pure_def]
    · simp only [compute_derived?, pydiv?, monthly_income, net_worth,
        debt_to_income, total_debt_to_income, interest_rate,
        interest_rate_adjustment, monthly_rate, monthly_payment,
        e12, e100, enq, eai, eden, eainz, eq_false hr,
        if_true, if_false, Option.bind_eq_bind', Option.some_bind, Option.pure_def]
  · have eai : (a.annual_income > 0) = False := eq_false hai
    by_cases hr : (a.base_interest_rate
        + (700 - a.credit_score) / 100 * 0.5) / 100 / 12 > 0
    · have epow : ((1 + (a.base_interest_rate
            + (700 - a.credit_score) / 100 * 0.5) / 100 / 12) ^ a.loan_duration
            - 1 = 0) = False :=
        eq_false (sub_ne_zero_of_ne (ne_of_gt (one_lt_pow₀ (by linarith) hn0)))
      simp only [compute_derived?, pydiv?, monthly_income, net_worth,
        debt_to_income, total_debt_to_income, interest_rate,
        interest_rate_adjustment, monthly_rate, monthly_payment,
        e12, e100, enq, eai, eq_true hr, epow,
        if_true, if_false, Option.bind_eq_bind', Option.some_bind, Option.pure_def]
    · simp only [compute_derived?, pydiv?, monthly_income, net_worth,
        debt_to_income, total_debt_to_income, interest_rate,
        interest_rate_adjustment, monthly_rate, monthly_payment,
        e12, e100, enq, eai, eq_false hr,
        if_true, if_false, Option.bind_eq_bind', Option.some_bind, Option.pure_def]

/-- The form's default applicant: every widget at its default value. -/
def sampleApplicant : ApplicantInput :=
  { age := 35, marital_status := "Single", num_dependents := 0,
    education_level := "High School", home_ownership := "Rent",
    employment_status := "Employed", experience := 10, job_tenure := 5,
    annual_income := 60000, savings_balance := 10000,
    checking_balance := 5000, total_assets := 50000,
    total_liabilities := 20000, credit_score := 600,
    credit_card_util := 0.3, num_open_credit := 3, monthly_debt := 400,
    num_inquiries := 2, length_credit_history := 10,
    payment_history := 85, utility_bills_payment := 90, bankruptcy := 0,
    previous_defaults := 0, loan_amount := 25000, loan_duration := 60,
    loan_purpose := "Home", base_interest_rate := 6.5 }

/-- C6 witness: the default applicant, whose duration 60 is a selectbox
choice. -/
theorem calculator_never_raises_witness :
    compute_derived? sampleApplicant = some
      ⟨monthly_income sampleApplicant.annual_income,
       net_worth sampleApplicant.total_assets sampleApplicant.total_liabilities,
       debt_to_income sampleApplicant.monthly_debt sampleApplicant.annual_income,
       total_debt_to_income sampleApplicant.monthly_debt
         sampleApplicant.annual_income,
       interest_rate sampleApplicant.base_interest_rate
         sampleApplicant.credit_score,
       monthly_rate (interest_rate sampleApplicant.base_interest_rate
         sampleApplicant.credit_score),
       monthly_payment sampleApplicant.loan_amount
         (monthly_rate (interest_rate sampleApplicant.base_interest_rate
           sampleApplicant.credit_score))
         sampleApplicant.loan_duration⟩ :=
  calculator_never_raises sampleApplicant (by decide)

/-- C1: the end-to-end scenario — annualIncome 60000, totalAssets 50000,
totalLiabilities 20000, monthlyDebtPayments 400, creditScore 600,
baseInterestRatePercent 6.5, loanAmount 25000, loanDurationMonths 60 —
yields monthlyIncome 5000, netWorth 30000, debtToIncomeRatio 0.08,
adjustedInterestRate 7.0 and a monthly payment that rounds to 495.03. -/
theorem scenario_end_to_end :
    monthly_income 60000 = 5000
    ∧ net_worth 50000 20000 = 30000
    ∧ debt_to_income 400 60000 = 0.08
    ∧ interest_rate 6.5 600 = 7
    ∧ |monthly_payment 25000 (monthly_rate (interest_rate 6.5 600)) 60
        - 495.03| < 0.005 := by
  have hr : monthly_rate (interest_rate 6.5 600) = 7 / 1200 := by
    norm_num [monthly_rate, interest_rate, interest_rate_adjustment]
  exact ⟨by norm_num [monthly_income], by norm_num [net_worth],
    by norm_num [debt_to_income], by norm_num [interest_rate, interest_rate_adjustment],
    hr ▸ payment_seven_pct_bound⟩

/-- C2: for numPayments ≥ 1 the amortized payment equals the annuity
formula when the rate is positive and principal / numPayments when the
rate is zero; in particular (25000, 7/100/12, 60) rounds to 495.03 and
(1200, 0, 12) is exactly 100. -/
theorem amortizedMonthlyPayment_spec (p r : ℚ) (n : ℕ) (hn : 1 ≤ n) :
    (0 < r → monthly_payment p r n
        = p * (r * (1 + r) ^ n) / ((1 + r) ^ n - 1))
    ∧ (r = 0 → monthly_payment p r n = p / (n : ℚ))
    ∧ |monthly_payment 25000 (7 / 100 / 12) 60 - 495.03| < 0.005
    ∧ monthly_payment 1200 0 12 = 100 := by
  have h712 : (7 : ℚ) / 100 / 12 = 7 / 1200 := by norm_num
  refine ⟨fun h => by rw [monthly_payment, if_pos h],
    fun h => by rw [h, monthly_payment, if_neg (lt_irrefl 0)],
    h712 ▸ payment_seven_pct_bound, ?_⟩
  rw [monthly_payment, if_neg (lt_irrefl 0)]
  norm_num

/-- C2 witness: the spec applied at p = 1200, r = 0, n = 12, with the
zero-rate implication discharged. -/
theorem amortizedMonthlyPayment_spec_witness :
    monthly_payment 1200 0 12 = 1200 / (12 : ℚ)
    ∧ |monthly_payment 25000 (7 / 100 / 12) 60 - 495.03| < 0.005
    ∧ monthly_payment 1200 0 12 = 100 :=
  ⟨(amortizedMonthlyPayment_spec 1200 0 12 (by norm_num)).2.1 rfl,
   (amortizedMonthlyPayment_spec 1200 0 12 (by norm_num)).2.2.1,
   (amortizedMonthlyPayment_spec 1200 0 12 (by norm_num)).2.2.2⟩

/-- C5: for every applicant the assembled record has exactly the 33
expected column names, in the trained schema's order, with no duplicate
and hence no missing or extra field. -/
theorem feature_record_schema (a : ApplicantInput) :
    (input_data a).map Prod.fst = expectedFields
    ∧ expectedFields.length = 33
    ∧ expectedFields.Nodup :=
  ⟨rfl, rfl, by decide⟩

/-- C8: the record's PaymentHistory and UtilityBillsPaymentHistory cells
hold the form scores divided by 100 — 0.0-1.0 fractions, not the raw
0-100 integers. -/
theorem scores_passed_as_fractions (a : ApplicantInput) :
    List.lookup "PaymentHistory" (input_data a)
      = some (.num (a.payment_history / 100))
    ∧ List.lookup "UtilityBillsPaymentHistory" (input_data a)
      = some (.num (a.utility_bills_payment / 100)) := by
  constructor <;> simp [input_data, List.lookup]

/-- C10: under the widget bounds (base rate in [3, 15], credit score in
[343, 712]) the monthly rate is at least 2.94/100/12 > 0, so the
zero-rate fallback branch of the payment computation is unreachable. -/
theorem fallback_unreachable (base cs p : ℚ) (n : ℕ)
    (hb1 : 3 ≤ base) (hb2 : base ≤ 15) (hc1 : 343 ≤ cs) (hc2 : cs ≤ 712) :
    2.94 / 100 / 12 ≤ monthly_rate (interest_rate base cs)
    ∧ 0 < monthly_rate (interest_rate base cs)
    ∧ monthly_payment p (monthly_rate (interest_rate base cs)) n
        = p * (monthly_rate (interest_rate base cs)
              * (1 + monthly_rate (interest_rate base cs)) ^ n) /
          ((1 + monthly_rate (interest_rate base cs)) ^ n - 1) := by
  have h1 : (2.94 : ℚ) ≤ interest_rate base cs := by
    unfold interest_rate interest_rate_adjustment
    nlinarith
  have h2 : 2.94 / 100 / 12 ≤ monthly_rate (interest_rate base cs) := by
    unfold monthly_rate
    nlinarith
  have h3 : 0 < monthly_rate (interest_rate base cs) := by
    have : (0 : ℚ) < 2.94 / 100 / 12 := by norm_num
    linarith
  exact ⟨h2, h3, by rw [monthly_payment, if_pos h3]⟩

/-- C10 witness at base = 6.5, cs = 600, p = 25000, n = 60. -/
theorem fallback_unreachable_witness :
    2.94 / 100 / 12 ≤ monthly_rate (interest_rate 6.5 600)
    ∧ 0 < monthly_rate (interest_rate 6.5 600)
    ∧ monthly_payment 25000 (monthly_rate (interest_rate 6.5 600)) 60
        = 25000 * (monthly_rate (interest_rate 6.5 600)
              * (1 + monthly_rate (interest_rate 6.5 600)) ^ 60) /
          ((1 + monthly_rate (interest_rate 6.5 600)) ^ 60 - 1) :=
  fallback_unreachable 6.5 600 25000 60 (by norm_num) (by norm_num)
    (by norm_num) (by norm_num)

end LoanApp
